import Mathlib

/-! Verification of the chunked transcription pipeline implemented by the
class UniversalTranscriptionService in background.ts.  The per-chunk
recognition logic (method processChunkWithContext) is embedded as the pure
function recognize below; the session state machine (startRecording,
processWebMChunk, stopRecording) is embedded as an explicit state-passing
step function over ServiceState, with chunk arrival and chunk completion
modelled as separate trace events because every chunk is processed through
asynchronous suspension points (storage read, fetch calls), so a chunk
completion may interleave with later arrivals or with stopRecording. -/

namespace YoutubeTranscriber

/-- Substring test on character lists, the semantics of the JavaScript
String.prototype.includes used by background.ts to classify error text. -/
def charsIncludes (pat : List Char) : List Char → Bool
  | [] => pat.isEmpty
  | l@(_ :: rest) => (pat.isPrefixOf l) || charsIncludes pat rest

/-- JavaScript s.includes(pat). -/
def strIncludes (s pat : String) : Bool :=
  charsIncludes pat.data s.data

/-- JavaScript s.trim(): strip leading and trailing whitespace. -/
def jsTrim (s : String) : String :=
  ⟨((s.data.dropWhile Char.isWhitespace).reverse.dropWhile Char.isWhitespace).reverse⟩

/-- The config object of a Google Speech recognition request body, as built
by processChunkWithContext.  Optional fields model fields that a given
request body may omit (JavaScript delete / absent key). -/
structure SpeechConfig where
  encoding : String
  sampleRateHertz : Option Nat
  audioChannelCount : Option Nat
  enableSeparateRecognitionPerChannel : Option Bool
  languageCode : String
  enableAutomaticPunctuation : Bool
  model : String
  useEnhanced : Bool
  maxAlternatives : Nat
deriving Repr, DecidableEq

/-- The primary request config for WebM Opus audio (background.ts lines
240-255): explicit 48000 Hz sample rate and stereo channel count. -/
def opusConfig : SpeechConfig :=
  { encoding := "WEBM_OPUS"
    sampleRateHertz := some 48000
    audioChannelCount := some 2
    enableSeparateRecognitionPerChannel := some false
    languageCode := "en-US"
    enableAutomaticPunctuation := true
    model := "video"
    useEnhanced := true
    maxAlternatives := 1 }

/-- The primary config after the Vorbis adjustment (lines 257-264): encoding
switched to WEBM_VORBIS and the sample-rate and channel-count keys deleted. -/
def vorbisConfig : SpeechConfig :=
  { opusConfig with
    encoding := "WEBM_VORBIS"
    sampleRateHertz := none
    audioChannelCount := none }

/-- Config of the primary attempt, chosen from the audio blob MIME type. -/
def primaryConfig (blobType : String) : SpeechConfig :=
  if strIncludes blobType "vorbis" then vorbisConfig else opusConfig

/-- Config of the retry issued after an HTTP-OK response with no results
(lines 334-347): sampleRateHertz omitted, channel count still explicit. -/
def noSampleRateConfig : SpeechConfig :=
  { opusConfig with sampleRateHertz := none }

/-- Config of the retry issued after an audio_channel_count complaint
(lines 405-415): no sampleRateHertz, no audioChannelCount, and no
enableSeparateRecognitionPerChannel key at all. -/
def channelRetryConfig : SpeechConfig :=
  { encoding := "WEBM_OPUS"
    sampleRateHertz := none
    audioChannelCount := none
    enableSeparateRecognitionPerChannel := none
    languageCode := "en-US"
    enableAutomaticPunctuation := true
    model := "video"
    useEnhanced := true
    maxAlternatives := 1 }

/-- Config of the fallback issued after a sample-rate complaint (lines
433-446): an explicit 44100 Hz sample rate, channel count still 2. -/
def rateFallbackConfig : SpeechConfig :=
  { opusConfig with sampleRateHertz := some 44100 }

/-- One alternative inside a recognition result.  Confidence is optional
because the JavaScript reads alternatives[0].confidence || 0. -/
structure SpeechAlternative where
  transcript : String
  confidence : Option Nat
deriving Repr, DecidableEq

/-- One result inside a recognition response; the alternatives key may be
absent (the code tests result.results[0].alternatives for truthiness). -/
structure SpeechResult where
  alternatives : Option (List SpeechAlternative)
deriving Repr, DecidableEq

/-- Body of an HTTP-OK recognition response; the results key may be absent. -/
structure RecognizeResponse where
  results : Option (List SpeechResult)
deriving Repr, DecidableEq

/-- Outcome of one fetch to the recognition endpoint: HTTP-OK with a JSON
body, a non-OK status with error text, or a rejected fetch promise
(network failure), which throws out of the enclosing try block. -/
inductive HttpResponse
  | ok (body : RecognizeResponse)
  | err (errorText : String)
  | netfail
deriving Repr, DecidableEq

/-- How one HTTP-OK body is interpreted by each of the three result-reading
sites in processChunkWithContext, which all run the same pattern:
a truthiness test on results, results.length and results[0].alternatives,
then alternatives[0].transcript with a trimmed-nonempty test.  thrown marks
the case results[0].alternatives = [] where reading alternatives[0].transcript
raises a TypeError that the outer catch swallows. -/
inductive ExtractResult
  | noResults
  | thrown
  | emptyText
  | found (text : String) (confidence : Nat)
deriving Repr, DecidableEq

/-- Interpretation of an HTTP-OK body (lines 288-292, 361-365, 458-462). -/
def extractTranscription (body : RecognizeResponse) : ExtractResult :=
  match body.results with
  | none => .noResults
  | some [] => .noResults
  | some (r :: _) =>
    match r.alternatives with
    | none => .noResults
    | some [] => .thrown
    | some (a :: _) =>
      if 0 < (jsTrim a.transcript).length then
        .found (jsTrim a.transcript) (a.confidence.getD 0)
      else
        .emptyText

/-- errorText.includes of the channel-count complaint (line 403). -/
def mentionsChannelCount (errorText : String) : Bool :=
  strIncludes errorText "audio_channel_count"

/-- errorText.includes of the sample-rate complaint (line 431). -/
def mentionsSampleRate (errorText : String) : Bool :=
  strIncludes errorText "sample rate" || strIncludes errorText "Opus sample rate"

/-- Net result of one processChunkWithContext invocation, seen from outside:
the request configs issued to the remote service in order, the transcription
(trimmed text and confidence) it would append, if any, and whether a
JavaScript exception reached the outer catch. -/
structure PipelineOut where
  requests : List SpeechConfig
  appended : Option (String × Nat)
  crashed : Bool
deriving Repr, DecidableEq

/-- The environment response to the i-th request issued by one invocation;
a response not supplied behaves as a network failure. -/
def respAt (rs : List HttpResponse) (i : Nat) : HttpResponse :=
  rs.getD i .netfail

/-- The retry taken when an HTTP-OK primary response carries no results
(lines 332-394): one request with noSampleRateConfig, whose successful
non-empty transcription is appended. -/
def noResultsRetry (cfg0 : SpeechConfig) (resp : HttpResponse) : PipelineOut :=
  match resp with
  | .netfail => ⟨[cfg0, noSampleRateConfig], none, true⟩
  | .err _ => ⟨[cfg0, noSampleRateConfig], none, false⟩
  | .ok body =>
    match extractTranscription body with
    | .found t c => ⟨[cfg0, noSampleRateConfig], some (t, c), false⟩
    | .thrown => ⟨[cfg0, noSampleRateConfig], none, true⟩
    | _ => ⟨[cfg0, noSampleRateConfig], none, false⟩

/-- The 44.1 kHz fallback taken on a sample-rate complaint (lines 430-491):
one request with rateFallbackConfig, whose successful non-empty
transcription is appended.  prior lists the requests already issued. -/
def rateFallbackStep (prior : List SpeechConfig) (resp : HttpResponse) : PipelineOut :=
  match resp with
  | .netfail => ⟨prior ++ [rateFallbackConfig], none, true⟩
  | .err _ => ⟨prior ++ [rateFallbackConfig], none, false⟩
  | .ok body =>
    match extractTranscription body with
    | .found t c => ⟨prior ++ [rateFallbackConfig], some (t, c), false⟩
    | .thrown => ⟨prior ++ [rateFallbackConfig], none, true⟩
    | _ => ⟨prior ++ [rateFallbackConfig], none, false⟩

/-- The non-OK branch of the primary response (lines 395-492): if the error
text mentions audio_channel_count, one retry with channelRetryConfig whose
result is only logged (never appended); then, if the error text mentions a
sample rate, the 44.1 kHz fallback.  A network failure during the channel
retry throws, skipping the sample-rate fallback. -/
def errorFallback (cfg0 : SpeechConfig) (errorText : String) (rs : List HttpResponse) :
    PipelineOut :=
  if mentionsChannelCount errorText then
    match respAt rs 1 with
    | .netfail => ⟨[cfg0, channelRetryConfig], none, true⟩
    | _ =>
      if mentionsSampleRate errorText then
        rateFallbackStep [cfg0, channelRetryConfig] (respAt rs 2)
      else
        ⟨[cfg0, channelRetryConfig], none, false⟩
  else if mentionsSampleRate errorText then
    rateFallbackStep [cfg0] (respAt rs 1)
  else
    ⟨[cfg0], none, false⟩

/-- The recognition pipeline of processChunkWithContext for one chunk,
as a function of the blob MIME type and the environment responses. -/
def recognize (blobType : String) (rs : List HttpResponse) : PipelineOut :=
  match respAt rs 0 with
  | .netfail => ⟨[primaryConfig blobType], none, true⟩
  | .err errorText => errorFallback (primaryConfig blobType) errorText rs
  | .ok body =>
    match extractTranscription body with
    | .found t c => ⟨[primaryConfig blobType], some (t, c), false⟩
    | .emptyText => ⟨[primaryConfig blobType], none, false⟩
    | .thrown => ⟨[primaryConfig blobType], none, true⟩
    | .noResults => noResultsRetry (primaryConfig blobType) (respAt rs 1)

/-- One transcript entry (interface TranscriptionEntry, lines 6-11). -/
structure TranscriptionEntry where
  timestamp : String
  text : String
  language : Option String
  chunkNumber : Nat
deriving Repr, DecidableEq

/-- The mutable fields of UniversalTranscriptionService the pipeline claims
depend on: the recording flag, the chunk counter, the accumulated entries
and the bounded context buffer of recent blob MIME types. -/
structure ServiceState where
  isRecording : Bool
  chunkCount : Nat
  transcriptionData : List TranscriptionEntry
  audioBuffer : List String
deriving Repr, DecidableEq

/-- Field initial values of the service singleton (lines 14-19). -/
def initialState : ServiceState :=
  { isRecording := false, chunkCount := 0, transcriptionData := [], audioBuffer := [] }

/-- Messages sent with chrome.runtime.sendMessage to the control surface. -/
inductive RuntimeMessage
  | recordingState (isRecording : Bool)
  | chunkProcessed (chunkNumber : Nat) (text : String) (confidence : Nat)
  | fileSaved
  | recordingError (error : String)
deriving Repr, DecidableEq

/-- Messages sent to the capturing content script via chrome.tabs.sendMessage. -/
inductive TabMessage
  | startRecordingMsg
  | stopRecordingMsg
  | recordingStateMsg (isRecording : Bool)
deriving Repr, DecidableEq

/-- Observable side effects of one step: runtime messages, tab messages,
notifications (title, body) and file exports, each export being the
snapshot of transcriptionData handed to saveTranscriptionFile. -/
structure StepOut where
  runtimeMessages : List RuntimeMessage
  tabMessages : List TabMessage
  notifications : List (String × String)
  saves : List (List TranscriptionEntry)
deriving Repr, DecidableEq

/-- A step with no observable side effects. -/
def emptyOut : StepOut := ⟨[], [], [], []⟩

/-- handleRecordingError (lines 127-141): clears the recording flag, sends
a recordingError runtime message and shows a notification. -/
def handleRecordingError (s : ServiceState) (msg : String) : ServiceState × StepOut :=
  ({ s with isRecording := false },
   { emptyOut with
     runtimeMessages := [.recordingError msg]
     notifications := [("Recording Error", msg)] })

/-- startRecording (lines 67-125).  hasApiKey abstracts the stored
credential lookup, tabIsYouTube the tab URL check and pingOk the content
script ping; a failed check inside the try block routes through
handleRecordingError.  With no stored key the method only shows a
notification and returns, touching nothing else. -/
def startRecording (s : ServiceState) (hasApiKey tabIsYouTube pingOk : Bool) :
    ServiceState × StepOut :=
  if s.isRecording then (s, emptyOut)
  else if !hasApiKey then
    (s, { emptyOut with
          notifications :=
            [("API Key Required", "Please add your Google Cloud API key in the extension popup")] })
  else if !tabIsYouTube then
    handleRecordingError s "Selected tab is not a YouTube page"
  else if !pingOk then
    handleRecordingError s "Content script is not reachable. Please refresh the YouTube page and try again."
  else
    ({ s with isRecording := true, transcriptionData := [], chunkCount := 0 },
     { emptyOut with
       runtimeMessages := [.recordingState true]
       tabMessages := [.startRecordingMsg]
       notifications :=
         [("Recording Started", "YouTube transcription starting. You may see a screen share prompt.")] })

/-- The synchronous prologue of processWebMChunk (lines 203-214): increment
the chunk counter and push the blob onto the bounded context buffer,
shifting the oldest element once the buffer exceeds three chunks. -/
def processWebMChunk (s : ServiceState) (blobType : String) : ServiceState :=
  let buf := s.audioBuffer ++ [blobType]
  { s with
    chunkCount := s.chunkCount + 1
    audioBuffer := if 3 < buf.length then buf.tail else buf }

/-- The asynchronous remainder of processChunkWithContext (lines 220-496),
which runs when its awaited calls resolve: re-reads the credential, runs
the recognition pipeline and, when the pipeline yields a transcription,
appends an entry stamped with the chunk counter value current at this
moment, emits a chunkProcessed message, and exports whenever the entry
count has become a multiple of five.  No branch touches isRecording. -/
def processChunkWithContext (s : ServiceState) (hasApiKey : Bool) (blobType : String)
    (timestamp : String) (rs : List HttpResponse) : ServiceState × StepOut :=
  if !hasApiKey then (s, emptyOut)
  else
    match (recognize blobType rs).appended with
    | none => (s, emptyOut)
    | some (t, c) =>
      let entry : TranscriptionEntry :=
        { timestamp := timestamp, text := t, language := some "en-US",
          chunkNumber := s.chunkCount }
      let data := s.transcriptionData ++ [entry]
      if data.length % 5 == 0 then
        ({ s with transcriptionData := data },
         { emptyOut with
           runtimeMessages := [.chunkProcessed s.chunkCount t c, .fileSaved]
           saves := [data] })
      else
        ({ s with transcriptionData := data },
         { emptyOut with runtimeMessages := [.chunkProcessed s.chunkCount t c] })

/-- stopRecording (lines 498-536): a no-op unless recording; otherwise
tells the capturer to stop, clears the flag, exports the accumulated
entries, broadcasts the state change and shows a notification. -/
def stopRecording (s : ServiceState) : ServiceState × StepOut :=
  if !s.isRecording then (s, emptyOut)
  else
    ({ s with isRecording := false },
     { runtimeMessages := [.fileSaved, .recordingState false]
       tabMessages := [.stopRecordingMsg, .recordingStateMsg false]
       notifications :=
         [("Recording Stopped", "Transcription completed. Check your downloads for the transcript file.")]
       saves := [s.transcriptionData] })

/-- Trace events of one session: a start command, the synchronous arrival
of a chunk, the completion of one in-flight chunk pipeline (carrying the
environment responses its fetches received), and a stop command. -/
inductive Ev
  | start (hasApiKey tabIsYouTube pingOk : Bool)
  | arrive (blobType : String)
  | complete (hasApiKey : Bool) (blobType : String) (timestamp : String)
      (rs : List HttpResponse)
  | stop
deriving Repr, DecidableEq

/-- One event against the service state. -/
def applyEv (s : ServiceState) : Ev → ServiceState × StepOut
  | .start k t p => startRecording s k t p
  | .arrive bt => (processWebMChunk s bt, emptyOut)
  | .complete k bt ts rs => processChunkWithContext s k bt ts rs
  | .stop => stopRecording s

/-- Run a trace of events, collecting the per-event side effects. -/
def runTrace (s : ServiceState) : List Ev → ServiceState × List StepOut
  | [] => (s, [])
  | e :: es =>
    let step := applyEv s e
    let rest := runTrace step.1 es
    (rest.1, step.2 :: rest.2)

/-- An HTTP-OK response carrying a single alternative with the given
transcript and confidence 1. -/
def successResponse (t : String) : HttpResponse :=
  .ok ⟨some [⟨some [⟨t, some 1⟩]⟩]⟩

/-- Arrival then completion of one chunk whose only request succeeds. -/
def okChunkEvents (t : String) : List Ev :=
  [.arrive "audio/webm;codecs=opus",
   .complete true "audio/webm;codecs=opus" "00:00:00" [successResponse t]]

/-- A full session: start, sequential successful chunks, stop. -/
def sessionTrace (texts : List String) : List Ev :=
  .start true true true :: (texts.flatMap okChunkEvents ++ [.stop])

/-- The entry appended for the i-th sequentially processed chunk. -/
def okEntry (i : Nat) (t : String) : TranscriptionEntry :=
  { timestamp := "00:00:00", text := jsTrim t, language := some "en-US", chunkNumber := i }

/-- Claim C7 (confirmed): stopRecording invoked while the recording flag is
false returns early, mutating no session state, triggering no export and
emitting no message or notification. -/
theorem stop_idempotent_on_idle (s : ServiceState) (h : s.isRecording = false) :
    stopRecording s = (s, emptyOut) := by
  simp [stopRecording, h]

/-- Witness for stop_idempotent_on_idle at the initial service state. -/
theorem stop_idempotent_on_idle_witness :
    stopRecording initialState = (initialState, emptyOut) :=
  stop_idempotent_on_idle initialState rfl

/-- Counterexample to claim C5 as stated: starting with no stored API key on
an idle service emits no runtime message at all to the control surface (in
particular no CredentialMissing error event); only a notification is shown. -/
theorem missing_key_no_error_event_cex :
    (startRecording initialState false true true).2.runtimeMessages = [] ∧
    (startRecording initialState false true true).2.tabMessages = [] ∧
    (startRecording initialState false true true).1 = initialState ∧
    (startRecording initialState false true true).2.notifications =
      [("API Key Required", "Please add your Google Cloud API key in the extension popup")] :=
  ⟨rfl, rfl, rfl, rfl⟩

/-- Claim C5 (amended): when startRecording runs with no stored credential on
an idle service, the session stays idle, no start message goes to the
capturer, and the failure surfaces only as an advisory notification; no
error event is emitted to the control surface. -/
theorem missing_key_notification_only (s : ServiceState) (t p : Bool)
    (h : s.isRecording = false) :
    startRecording s false t p =
      (s, { emptyOut with
            notifications :=
              [("API Key Required", "Please add your Google Cloud API key in the extension popup")] }) := by
  simp [startRecording, h]

/-- Witness for missing_key_notification_only at the initial service state. -/
theorem missing_key_notification_only_witness :
    startRecording initialState false true true =
      (initialState,
       { emptyOut with
         notifications :=
           [("API Key Required", "Please add your Google Cloud API key in the extension popup")] }) :=
  missing_key_notification_only initialState true true rfl

/-- Claim C4 is violated by the code (code bug): a chunk whose recognition
resolves after stopRecording has cleared the recording flag still appends
its TranscriptEntry to the closed session, even though the final export at
stop already ran on the empty entry sequence. -/
theorem completion_after_stop_appends_entry :
    (runTrace initialState
      [.start true true true, .arrive "audio/webm;codecs=opus", .stop,
       .complete true "audio/webm;codecs=opus" "00:00:05" [successResponse "hello world"]]).1 =
      { isRecording := false, chunkCount := 1,
        transcriptionData :=
          [{ timestamp := "00:00:05", text := "hello world",
             language := some "en-US", chunkNumber := 1 }],
        audioBuffer := ["audio/webm;codecs=opus"] } ∧
    ((runTrace initialState
      [.start true true true, .arrive "audio/webm;codecs=opus", .stop,
       .complete true "audio/webm;codecs=opus" "00:00:05" [successResponse "hello world"]]).2.getD 2
        emptyOut).saves = [[]] := by
  constructor <;> decide

/-- Claim C8 is violated by the code (code bug): with two chunks in flight,
both completions stamp their entry with the chunk counter value current at
completion time, so the appended entries carry the duplicate chunkNumbers
[2, 2], which is not strictly increasing and not one-to-one with chunks. -/
theorem overlapping_chunks_duplicate_chunkNumbers :
    ((runTrace initialState
      [.start true true true, .arrive "audio/webm;codecs=opus",
       .arrive "audio/webm;codecs=opus",
       .complete true "audio/webm;codecs=opus" "00:00:01" [successResponse "first words"],
       .complete true "audio/webm;codecs=opus" "00:00:02" [successResponse "second words"]]).1.transcriptionData.map
        TranscriptionEntry.chunkNumber) = [2, 2] ∧
    ¬ List.Pairwise (· < ·)
      ((runTrace initialState
        [.start true true true, .arrive "audio/webm;codecs=opus",
         .arrive "audio/webm;codecs=opus",
         .complete true "audio/webm;codecs=opus" "00:00:01" [successResponse "first words"],
         .complete true "audio/webm;codecs=opus" "00:00:02" [successResponse "second words"]]).1.transcriptionData.map
          TranscriptionEntry.chunkNumber) := by
  have h : ((runTrace initialState
      [.start true true true, .arrive "audio/webm;codecs=opus",
       .arrive "audio/webm;codecs=opus",
       .complete true "audio/webm;codecs=opus" "00:00:01" [successResponse "first words"],
       .complete true "audio/webm;codecs=opus" "00:00:02" [successResponse "second words"]]).1.transcriptionData.map
        TranscriptionEntry.chunkNumber) = [2, 2] := by decide
  refine ⟨h, ?_⟩
  rw [h]
  simp [List.pairwise_cons]

/-- Counterexample to claim C1 as stated: on a primary failure whose error
text indicates an unsupported sample rate, the single retry keeps an
explicit sample-rate hint, now 44100, instead of omitting the hint. -/
theorem sampleRate_retry_not_omitted_cex :
    (recognize "audio/webm;codecs=opus"
      [.err "Invalid sample rate", .ok ⟨some []⟩]).requests =
      [opusConfig, rateFallbackConfig] ∧
    rateFallbackConfig.sampleRateHertz = some 44100 ∧
    opusConfig.sampleRateHertz = some 48000 :=
  ⟨rfl, rfl, rfl⟩

/-- The sample-rate fallback always issues exactly one request with
rateFallbackConfig after the prior requests, whatever its response. -/
theorem rateFallbackStep_requests (prior : List SpeechConfig) (resp : HttpResponse) :
    (rateFallbackStep prior resp).requests = prior ++ [rateFallbackConfig] := by
  cases resp <;> simp [rateFallbackStep]
  case ok body => cases he : extractTranscription body <;> simp [he]

/-- The no-results retry always issues exactly one request with
noSampleRateConfig after the primary, whatever its response. -/
theorem noResultsRetry_requests (cfg0 : SpeechConfig) (resp : HttpResponse) :
    (noResultsRetry cfg0 resp).requests = [cfg0, noSampleRateConfig] := by
  cases resp <;> simp [noResultsRetry]
  case ok body => cases he : extractTranscription body <;> simp [he]

/-- Requests issued by the non-OK branch, as a function of the two error
text tests and of whether the channel-count retry hits a network failure. -/
theorem errorFallback_requests_eq (cfg0 : SpeechConfig) (errText : String)
    (rs : List HttpResponse) :
    (errorFallback cfg0 errText rs).requests =
      if mentionsChannelCount errText then
        if respAt rs 1 = .netfail then [cfg0, channelRetryConfig]
        else if mentionsSampleRate errText then
          [cfg0, channelRetryConfig, rateFallbackConfig]
        else [cfg0, channelRetryConfig]
      else if mentionsSampleRate errText then [cfg0, rateFallbackConfig]
      else [cfg0] := by
  unfold errorFallback
  cases hc : mentionsChannelCount errText
  · cases hs : mentionsSampleRate errText <;>
      simp [hc, hs, rateFallbackStep_requests]
  · cases h1 : respAt rs 1 <;>
      cases hs : mentionsSampleRate errText <;>
        simp [hc, hs, h1, rateFallbackStep_requests]

/-- Claim C1 (amended): on a primary failure whose error text mentions
audio_channel_count, the pipeline retries exactly once with the
channel-count hint omitted, the retry also omitting the sample-rate hint;
on a failure whose error text mentions a sample rate (and not the channel
count), it retries exactly once with an explicit 44100 Hz sample-rate hint
instead of omitting the hint.  At most two such fallbacks follow a primary
failure. -/
theorem targeted_fallback_amended (bt errText : String) (rest : List HttpResponse) :
    (mentionsChannelCount errText = true →
      (recognize bt (.err errText :: rest)).requests[1]? = some channelRetryConfig ∧
      channelRetryConfig.audioChannelCount = none ∧
      channelRetryConfig.sampleRateHertz = none) ∧
    (mentionsChannelCount errText = false → mentionsSampleRate errText = true →
      (recognize bt (.err errText :: rest)).requests =
        [primaryConfig bt, rateFallbackConfig] ∧
      rateFallbackConfig.sampleRateHertz = some 44100 ∧
      rateFallbackConfig.audioChannelCount = some 2) ∧
    (recognize bt (.err errText :: rest)).requests.length ≤ 3 := by
  have hr : recognize bt (.err errText :: rest) =
      errorFallback (primaryConfig bt) errText (.err errText :: rest) := rfl
  rw [hr, errorFallback_requests_eq]
  refine ⟨fun hc => ⟨?_, rfl, rfl⟩, fun hc hs => ⟨?_, rfl, rfl⟩, ?_⟩
  · rw [if_pos hc]
    split
    · simp
    · split <;> simp
  · simp [hc, hs]
  · split
    · split
      · simp
      · split <;> simp
    · split <;> simp

/-- Witness for targeted_fallback_amended on a channel-count error text. -/
theorem targeted_fallback_amended_witness :
    (mentionsChannelCount "audio_channel_count bad" = true →
      (recognize "audio/webm;codecs=opus"
        [.err "audio_channel_count bad"]).requests[1]? = some channelRetryConfig ∧
      channelRetryConfig.audioChannelCount = none ∧
      channelRetryConfig.sampleRateHertz = none) ∧
    (mentionsChannelCount "audio_channel_count bad" = false →
      mentionsSampleRate "audio_channel_count bad" = true →
      (recognize "audio/webm;codecs=opus" [.err "audio_channel_count bad"]).requests =
        [primaryConfig "audio/webm;codecs=opus", rateFallbackConfig] ∧
      rateFallbackConfig.sampleRateHertz = some 44100 ∧
      rateFallbackConfig.audioChannelCount = some 2) ∧
    (recognize "audio/webm;codecs=opus" [.err "audio_channel_count bad"]).requests.length ≤ 3 :=
  targeted_fallback_amended "audio/webm;codecs=opus" "audio_channel_count bad" []

/-- Claim C2 (confirmed): one chunk-processing invocation issues at most
three requests, and when it issues three they are the primary config, then
the channel-count-removal retry, then the 44100 Hz sample-rate fallback,
in that order. -/
theorem attempts_bounded_by_three (bt : String) (rs : List HttpResponse) :
    (recognize bt rs).requests.length ≤ 3 ∧
    ((recognize bt rs).requests.length = 3 →
      (recognize bt rs).requests =
        [primaryConfig bt, channelRetryConfig, rateFallbackConfig]) := by
  unfold recognize
  cases h0 : respAt rs 0
  case netfail => simp
  case ok body =>
    cases he : extractTranscription body <;> simp [he, noResultsRetry_requests]
  case err errorText =>
    rw [errorFallback_requests_eq]
    split
    · split
      · simp
      · split <;> simp
    · split <;> simp

/-- Witness for attempts_bounded_by_three on an error mentioning both the
channel count and the sample rate, which exercises all three attempts. -/
theorem attempts_bounded_by_three_witness :
    (recognize "audio/webm;codecs=opus"
      [.err "audio_channel_count and sample rate", .err "x", .ok ⟨none⟩]).requests.length ≤ 3 ∧
    ((recognize "audio/webm;codecs=opus"
      [.err "audio_channel_count and sample rate", .err "x", .ok ⟨none⟩]).requests.length = 3 →
      (recognize "audio/webm;codecs=opus"
        [.err "audio_channel_count and sample rate", .err "x", .ok ⟨none⟩]).requests =
        [primaryConfig "audio/webm;codecs=opus", channelRetryConfig, rateFallbackConfig]) :=
  attempts_bounded_by_three "audio/webm;codecs=opus"
    [.err "audio_channel_count and sample rate", .err "x", .ok ⟨none⟩]

/-- Claim C3 (confirmed): when the primary request returns HTTP-OK with zero
results, the invocation issues exactly one retry, whose config omits the
sample-rate hint, and when that retry also returns zero results no
transcript entry is produced. -/
theorem zero_results_single_noSampleRate_retry (bt : String) (body : RecognizeResponse)
    (rest : List HttpResponse)
    (h : body.results = none ∨ body.results = some []) :
    (recognize bt (.ok body :: rest)).requests = [primaryConfig bt, noSampleRateConfig] ∧
    noSampleRateConfig.sampleRateHertz = none ∧
    (∀ body2 rest2, rest = .ok body2 :: rest2 →
      body2.results = none ∨ body2.results = some [] →
      (recognize bt (.ok body :: rest)).appended = none) := by
  have he : extractTranscription body = .noResults := by
    rcases h with h | h <;> simp [extractTranscription, h]
  have hr : recognize bt (.ok body :: rest) =
      noResultsRetry (primaryConfig bt) (respAt (.ok body :: rest) 1) := by
    unfold recognize
    simp [respAt, he]
  refine ⟨?_, rfl, ?_⟩
  · rw [hr]
    cases h1 : respAt (HttpResponse.ok body :: rest) 1 <;> simp [noResultsRetry, h1]
    case ok body2 =>
      cases he2 : extractTranscription body2 <;> simp [he2]
  · intro body2 rest2 hrest hz
    have he2 : extractTranscription body2 = .noResults := by
      rcases hz with hz | hz <;> simp [extractTranscription, hz]
    rw [hr]
    have h1 : respAt (HttpResponse.ok body :: rest) 1 = .ok body2 := by
      simp [respAt, hrest]
    rw [h1]
    simp [noResultsRetry, he2]

/-- Witness for zero_results_single_noSampleRate_retry: primary OK response
with an absent results key, retry OK with an empty results array. -/
theorem zero_results_single_noSampleRate_retry_witness :
    (recognize "audio/webm;codecs=opus" [.ok ⟨none⟩, .ok ⟨some []⟩]).requests =
      [primaryConfig "audio/webm;codecs=opus", noSampleRateConfig] ∧
    noSampleRateConfig.sampleRateHertz = none ∧
    (∀ body2 rest2, [HttpResponse.ok ⟨some []⟩] = .ok body2 :: rest2 →
      body2.results = none ∨ body2.results = some [] →
      (recognize "audio/webm;codecs=opus" [.ok ⟨none⟩, .ok ⟨some []⟩]).appended = none) :=
  zero_results_single_noSampleRate_retry "audio/webm;codecs=opus" ⟨none⟩
    [.ok ⟨some []⟩] (Or.inl rfl)

/-- Claim C9 (confirmed): a chunk completion never ends the session.  For
any completion on a recording session the flag stays true, previously
appended entries stay in place as a prefix of the new sequence, a
mid-session missing credential makes the completion a silent no-op, and a
completion whose pipeline yields no transcription leaves the entry
sequence exactly unchanged. -/
theorem chunk_failure_preserves_session (s : ServiceState) (k : Bool) (bt ts : String)
    (rs : List HttpResponse) (h : s.isRecording = true) :
    (processChunkWithContext s k bt ts rs).1.isRecording = true ∧
    (∃ tail, (processChunkWithContext s k bt ts rs).1.transcriptionData =
      s.transcriptionData ++ tail) ∧
    (k = false → processChunkWithContext s k bt ts rs = (s, emptyOut)) ∧
    ((recognize bt rs).appended = none →
      (processChunkWithContext s k bt ts rs).1.transcriptionData = s.transcriptionData) := by
  cases k
  · exact ⟨by simp [processChunkWithContext, h], ⟨[], by simp [processChunkWithContext]⟩,
      fun _ => by simp [processChunkWithContext], fun _ => by simp [processChunkWithContext]⟩
  · cases ha : (recognize bt rs).appended with
    | none =>
      exact ⟨by simp [processChunkWithContext, ha, h], ⟨[], by simp [processChunkWithContext, ha]⟩,
        by simp, fun _ => by simp [processChunkWithContext, ha]⟩
    | some tc =>
      obtain ⟨t, c⟩ := tc
      refine ⟨?_, ⟨[⟨ts, t, some "en-US", s.chunkCount⟩], ?_⟩, by simp, ?_⟩
      · simp only [processChunkWithContext, ha, Bool.not_true]
        split
        · simp_all
        · split <;> simp [h]
      · simp only [processChunkWithContext, ha, Bool.not_true]
        split
        · simp_all
        · split <;> simp
      · intro hn
        exact Option.noConfusion hn

/-- Witness for chunk_failure_preserves_session: a recording session whose
chunk fails with a plain HTTP error. -/
theorem chunk_failure_preserves_session_witness :
    (processChunkWithContext ⟨true, 0, [], []⟩ true "audio/webm;codecs=opus" "00:00:00"
      [.err "boom"]).1.isRecording = true ∧
    (∃ tail, (processChunkWithContext ⟨true, 0, [], []⟩ true "audio/webm;codecs=opus" "00:00:00"
      [.err "boom"]).1.transcriptionData = (⟨true, 0, [], []⟩ : ServiceState).transcriptionData ++ tail) ∧
    (true = false → processChunkWithContext ⟨true, 0, [], []⟩ true "audio/webm;codecs=opus" "00:00:00"
      [.err "boom"] = (⟨true, 0, [], []⟩, emptyOut)) ∧
    ((recognize "audio/webm;codecs=opus" [.err "boom"]).appended = none →
      (processChunkWithContext ⟨true, 0, [], []⟩ true "audio/webm;codecs=opus" "00:00:00"
        [.err "boom"]).1.transcriptionData = (⟨true, 0, [], []⟩ : ServiceState).transcriptionData) :=
  chunk_failure_preserves_session ⟨true, 0, [], []⟩ true "audio/webm;codecs=opus" "00:00:00"
    [.err "boom"] rfl

/-- Claim C10 (confirmed): a successful channel-count-omitted retry is
discarded, appending nothing and emitting nothing, while the no-results
retry and the sample-rate fallback do append their successful non-empty
transcriptions. -/
theorem channel_fallback_result_discarded :
    (∀ (s : ServiceState) (bt ts errText : String) (r1 : HttpResponse)
        (rest : List HttpResponse),
      mentionsChannelCount errText = true →
      mentionsSampleRate errText = false →
      (recognize bt (.err errText :: r1 :: rest)).appended = none ∧
      processChunkWithContext s true bt ts (.err errText :: r1 :: rest) = (s, emptyOut)) ∧
    (∀ (bt errText t : String) (rest : List HttpResponse),
      mentionsChannelCount errText = false →
      mentionsSampleRate errText = true →
      0 < (jsTrim t).length →
      (recognize bt (.err errText :: successResponse t :: rest)).appended =
        some (jsTrim t, 1)) ∧
    (∀ (bt t : String) (rest : List HttpResponse),
      0 < (jsTrim t).length →
      (recognize bt (.ok ⟨none⟩ :: successResponse t :: rest)).appended =
        some (jsTrim t, 1)) := by
  refine ⟨?_, ?_, ?_⟩
  · intro s bt ts errText r1 rest hc hs
    have happ : (recognize bt (.err errText :: r1 :: rest)).appended = none := by
      have hr : recognize bt (.err errText :: r1 :: rest) =
          errorFallback (primaryConfig bt) errText (.err errText :: r1 :: rest) := rfl
      rw [hr]
      cases hr1 : respAt (HttpResponse.err errText :: r1 :: rest) 1 <;>
        simp [errorFallback, hc, hs, hr1]
    exact ⟨happ, by simp [processChunkWithContext, happ]⟩
  · intro bt errText t rest hc hs ht
    have hr : recognize bt (.err errText :: successResponse t :: rest) =
        errorFallback (primaryConfig bt) errText (.err errText :: successResponse t :: rest) := rfl
    rw [hr]
    simp [errorFallback, hc, hs, respAt, rateFallbackStep, successResponse,
      extractTranscription, ht]
  · intro bt t rest ht
    simp [recognize, respAt, extractTranscription, noResultsRetry, successResponse, ht]

/-- Witness for channel_fallback_result_discarded at concrete error texts,
responses and transcripts. -/
theorem channel_fallback_result_discarded_witness :
    ((recognize "audio/webm;codecs=opus"
      [.err "audio_channel_count", .ok ⟨some []⟩]).appended = none ∧
     processChunkWithContext initialState true "audio/webm;codecs=opus" "00:00:00"
       [.err "audio_channel_count", .ok ⟨some []⟩] = (initialState, emptyOut)) ∧
    (recognize "audio/webm;codecs=opus"
      [.err "sample rate", successResponse "hello"]).appended = some (jsTrim "hello", 1) ∧
    (recognize "audio/webm;codecs=opus"
      [.ok ⟨none⟩, successResponse "there"]).appended = some (jsTrim "there", 1) :=
  ⟨channel_fallback_result_discarded.1 initialState "audio/webm;codecs=opus" "00:00:00"
      "audio_channel_count" (.ok ⟨some []⟩) [] (by decide) (by decide),
   channel_fallback_result_discarded.2.1 "audio/webm;codecs=opus" "sample rate" "hello" []
      (by decide) (by decide) (by decide),
   channel_fallback_result_discarded.2.2 "audio/webm;codecs=opus" "there" [] (by decide)⟩

/-- Claim C6 (confirmed): a session of twelve sequentially processed chunks,
each transcribed with non-empty text, triggers a periodic export exactly
when the entry count reaches five and again at ten, and stopRecording
triggers one final export holding all twelve entries in sequence order. -/
theorem twelve_chunk_session_exports
    (t1 t2 t3 t4 t5 t6 t7 t8 t9 t10 t11 t12 : String)
    (h1 : 0 < (jsTrim t1).length) (h2 : 0 < (jsTrim t2).length)
    (h3 : 0 < (jsTrim t3).length) (h4 : 0 < (jsTrim t4).length)
    (h5 : 0 < (jsTrim t5).length) (h6 : 0 < (jsTrim t6).length)
    (h7 : 0 < (jsTrim t7).length) (h8 : 0 < (jsTrim t8).length)
    (h9 : 0 < (jsTrim t9).length) (h10 : 0 < (jsTrim t10).length)
    (h11 : 0 < (jsTrim t11).length) (h12 : 0 < (jsTrim t12).length) :
    ((runTrace initialState
        (sessionTrace [t1, t2, t3, t4, t5, t6, t7, t8, t9, t10, t11, t12])).2.flatMap
      StepOut.saves) =
      [[okEntry 1 t1, okEntry 2 t2, okEntry 3 t3, okEntry 4 t4, okEntry 5 t5],
       [okEntry 1 t1, okEntry 2 t2, okEntry 3 t3, okEntry 4 t4, okEntry 5 t5,
        okEntry 6 t6, okEntry 7 t7, okEntry 8 t8, okEntry 9 t9, okEntry 10 t10],
       [okEntry 1 t1, okEntry 2 t2, okEntry 3 t3, okEntry 4 t4, okEntry 5 t5,
        okEntry 6 t6, okEntry 7 t7, okEntry 8 t8, okEntry 9 t9, okEntry 10 t10,
        okEntry 11 t11, okEntry 12 t12]] ∧
    (runTrace initialState
      (sessionTrace [t1, t2, t3, t4, t5, t6, t7, t8, t9, t10, t11, t12])).1.isRecording =
      false ∧
    (runTrace initialState
      (sessionTrace [t1, t2, t3, t4, t5, t6, t7, t8, t9, t10, t11, t12])).1.transcriptionData =
      [okEntry 1 t1, okEntry 2 t2, okEntry 3 t3, okEntry 4 t4, okEntry 5 t5,
       okEntry 6 t6, okEntry 7 t7, okEntry 8 t8, okEntry 9 t9, okEntry 10 t10,
       okEntry 11 t11, okEntry 12 t12] ∧
    ((runTrace initialState
      (sessionTrace [t1, t2, t3, t4, t5, t6, t7, t8, t9, t10, t11, t12])).2.getD 25
        emptyOut).saves =
      [[okEntry 1 t1, okEntry 2 t2, okEntry 3 t3, okEntry 4 t4, okEntry 5 t5,
        okEntry 6 t6, okEntry 7 t7, okEntry 8 t8, okEntry 9 t9, okEntry 10 t10,
        okEntry 11 t11, okEntry 12 t12]] := by
  set_option maxRecDepth 4000 in
  simp [sessionTrace, okChunkEvents, runTrace, applyEv, startRecording, initialState,
    processWebMChunk, processChunkWithContext, recognize, respAt, extractTranscription,
    successResponse, noResultsRetry, stopRecording, okEntry, emptyOut,
    h1, h2, h3, h4, h5, h6, h7, h8, h9, h10, h11, h12]

/-- Witness for twelve_chunk_session_exports at twelve concrete non-empty
transcripts. -/
theorem twelve_chunk_session_exports_witness :
    ((runTrace initialState
        (sessionTrace ["w1", "w2", "w3", "w4", "w5", "w6", "w7", "w8", "w9", "w10",
          "w11", "w12"])).2.flatMap StepOut.saves) =
      [[okEntry 1 "w1", okEntry 2 "w2", okEntry 3 "w3", okEntry 4 "w4", okEntry 5 "w5"],
       [okEntry 1 "w1", okEntry 2 "w2", okEntry 3 "w3", okEntry 4 "w4", okEntry 5 "w5",
        okEntry 6 "w6", okEntry 7 "w7", okEntry 8 "w8", okEntry 9 "w9", okEntry 10 "w10"],
       [okEntry 1 "w1", okEntry 2 "w2", okEntry 3 "w3", okEntry 4 "w4", okEntry 5 "w5",
        okEntry 6 "w6", okEntry 7 "w7", okEntry 8 "w8", okEntry 9 "w9", okEntry 10 "w10",
        okEntry 11 "w11", okEntry 12 "w12"]] ∧
    (runTrace initialState
      (sessionTrace ["w1", "w2", "w3", "w4", "w5", "w6", "w7", "w8", "w9", "w10",
        "w11", "w12"])).1.isRecording = false ∧
    (runTrace initialState
      (sessionTrace ["w1", "w2", "w3", "w4", "w5", "w6", "w7", "w8", "w9", "w10",
        "w11", "w12"])).1.transcriptionData =
      [okEntry 1 "w1", okEntry 2 "w2", okEntry 3 "w3", okEntry 4 "w4", okEntry 5 "w5",
       okEntry 6 "w6", okEntry 7 "w7", okEntry 8 "w8", okEntry 9 "w9", okEntry 10 "w10",
       okEntry 11 "w11", okEntry 12 "w12"] ∧
    ((runTrace initialState
      (sessionTrace ["w1", "w2", "w3", "w4", "w5", "w6", "w7", "w8", "w9", "w10",
        "w11", "w12"])).2.getD 25 emptyOut).saves =
      [[okEntry 1 "w1", okEntry 2 "w2", okEntry 3 "w3", okEntry 4 "w4", okEntry 5 "w5",
        okEntry 6 "w6", okEntry 7 "w7", okEntry 8 "w8", okEntry 9 "w9", okEntry 10 "w10",
        okEntry 11 "w11", okEntry 12 "w12"]] :=
  twelve_chunk_session_exports "w1" "w2" "w3" "w4" "w5" "w6" "w7" "w8" "w9" "w10" "w11" "w12"
    (by decide) (by decide) (by decide) (by decide) (by decide) (by decide)
    (by decide) (by decide) (by decide) (by decide) (by decide) (by decide)

end YoutubeTranscriber
